import Mathlib

/-!
Verification of the game-environment classification core of the
`nhl-data-pipeline` repository (`src/analysis/game_environment.py`,
`src/models/slate.py`), as a shallow embedding in Lean 4.

Modelling conventions:
* Python floats become `ℚ` (the code only compares, copies and prints them;
  no float-specific behaviour is exercised by the classification logic).
* Python `None` for an optional value becomes `Option`.
* The in-place mutation of a `GameSlateEntry` by `_check_divergence` and
  `_classify_environment` becomes functional update: each function takes the
  entry and returns the updated entry.
* Python `dict[str, TeamShotQuality]` becomes an association list
  `List (String × TeamShotQuality)`; iteration order of the dict is the list
  order, and key lookup is the first entry with an equal key.
* Python string interpolation of a float (both the bare `f"{x}"` form and the
  `f"{x:.1f}"` form) is rendered by `fmt1`, a one-decimal fixed-point
  rendering of the rational; for the half-point betting totals and
  one-decimal percentages this pipeline handles, this is exactly Python's
  output, and no theorem below depends on the digits produced.
-/

/-- Substring containment on strings, modelling Python's `sub in s`
operator for `str` (contiguous substring, case-sensitive). -/
def strContains (s sub : String) : Bool :=
  decide (sub.data <:+: s.data)

/-- `semijoin l` models Python's `"; ".join(l)`. -/
def semijoin : List String → String
  | [] => ""
  | [s] => s
  | s :: rest => s ++ "; " ++ semijoin rest

/-- One-decimal fixed-point rendering of a rational number, modelling
Python's formatting of the floats that appear in the rationale and
divergence strings (`f"{x:.1f}"`, and `f"{x}"` for the half-point totals). -/
def fmt1 (q : ℚ) : String :=
  let n : Int := (q * 10 + 1 / 2).floor
  toString (n / 10) ++ "." ++ toString ((n % 10).natAbs)

/-- `GameEnvironment` from `src/models/slate.py`: the four slate tiers.
`chalk` is the spec's Strong-Consensus, `leverage` its Edge. -/
inductive GameEnvironment : Type
  | chalk
  | leverage
  | contrarian
  | avoid
  deriving DecidableEq, Repr

/-- `GameOdds` from `src/models/slate.py`: Vegas odds for a single game.
The `commence_time : datetime | None` field is modelled as an opaque
optional integer timestamp; nothing in the classifier reads it. -/
structure GameOdds : Type where
  event_id : String
  home_team : String
  away_team : String
  commence_time : Option Int
  home_ml : Int
  away_ml : Int
  home_spread : Option ℚ
  total : ℚ
  home_implied_total : ℚ
  away_implied_total : ℚ
  bookmaker : String := "draftkings"
  deriving DecidableEq, Repr

/-- `TeamShotQuality` from `src/models/slate.py`: a team's shot quality
metrics, every statistic optional. -/
structure TeamShotQuality : Type where
  team_abbrev : String
  games : Nat := 0
  cf_pct : Option ℚ := none
  ff_pct : Option ℚ := none
  sf_pct : Option ℚ := none
  gf_pct : Option ℚ := none
  xgf_pct : Option ℚ := none
  hdcf_pct : Option ℚ := none
  hdcf_per_60 : Option ℚ := none
  hdca_per_60 : Option ℚ := none
  sh_pct : Option ℚ := none
  sv_pct : Option ℚ := none
  pdo : Option ℚ := none
  deriving DecidableEq, Repr

/-- `GameSlateEntry` from `src/models/slate.py`: one game's slate analysis.
The `home_lines`/`away_lines` DailyFaceoff fields are omitted: nothing in the
classification core writes or reads them (they stay `None` throughout). -/
structure GameSlateEntry : Type where
  home_team : String
  away_team : String
  commence_time : Option Int := none
  total : ℚ := 0
  home_implied_total : ℚ := 0
  away_implied_total : ℚ := 0
  home_ml : Int := 0
  away_ml : Int := 0
  home_spread : Option ℚ := none
  home_hdcf_pct : Option ℚ := none
  home_xgf_pct : Option ℚ := none
  home_hdcf_per_60 : Option ℚ := none
  home_hdca_per_60 : Option ℚ := none
  home_pdo : Option ℚ := none
  away_hdcf_pct : Option ℚ := none
  away_xgf_pct : Option ℚ := none
  away_hdcf_per_60 : Option ℚ := none
  away_hdca_per_60 : Option ℚ := none
  away_pdo : Option ℚ := none
  environment : GameEnvironment := GameEnvironment.avoid
  environment_reason : String := ""
  divergence_flag : Bool := false
  divergence_detail : String := ""
  deriving DecidableEq, Repr

/-- `SlateBreakdown` from `src/models/slate.py`. -/
structure SlateBreakdown : Type where
  games : List GameSlateEntry := []
  deriving DecidableEq, Repr

/-! Threshold constants from `src/analysis/game_environment.py`, lines 40-58.
Decimal values written as exact rationals (`5.5 = 11/2`, etc.). -/

def HIGH_TOTAL_THRESHOLD : ℚ := 6
def MODERATE_TOTAL_THRESHOLD : ℚ := 11 / 2
def STRONG_HDCF_PCT : ℚ := 52
def WEAK_HDCF_PCT : ℚ := 47
def STRONG_XGF_PCT : ℚ := 52
def WEAK_XGF_PCT : ℚ := 47
def HIGH_PDO : ℚ := 203 / 2
def LOW_PDO : ℚ := 197 / 2
def DIVERGENCE_TOTAL_THRESHOLD : ℚ := 3
def DIVERGENCE_HDCF_THRESHOLD : ℚ := 47

/-- The "market overpricing offense" flag message built at
`game_environment.py` lines 126-129 and 137-140. -/
def overpricing_msg (team : String) (implied hdcf : ℚ) : String :=
  team ++ ": " ++ fmt1 implied ++ " implied total but only " ++ fmt1 hdcf
    ++ "% HDCF — market overpricing offense"

/-- The "running hot" PDO flag message built at
`game_environment.py` lines 144-146 and 148-150. -/
def pdo_msg (team : String) (pdo : ℚ) : String :=
  team ++ ": PDO at " ++ fmt1 pdo ++ " — running hot, regression risk"

/-- One "high implied total but poor shot quality" check of
`_check_divergence`: the home block at lines 121-129, and the away block at
lines 132-140 ("Away team: same check"), which differ only in which team,
implied total and metrics record they read. -/
def offense_flags (quality : Option TeamShotQuality) (team : String)
    (implied_total : ℚ) : List String :=
  match quality with
  | some q =>
    match q.hdcf_pct with
    | some hdcf =>
      if DIVERGENCE_TOTAL_THRESHOLD ≤ implied_total
          ∧ hdcf < DIVERGENCE_HDCF_THRESHOLD then
        [overpricing_msg team implied_total hdcf]
      else []
    | none => []
  | none => []

/-- One "high PDO = running hot" check of `_check_divergence`: the home
block at lines 143-146 and the away block at lines 147-150. -/
def luck_flags (quality : Option TeamShotQuality) (team : String) : List String :=
  match quality with
  | some q =>
    match q.pdo with
    | some pdo => if HIGH_PDO < pdo then [pdo_msg team pdo] else []
    | none => []
  | none => []

/-- The `flags` list accumulated inside `_check_divergence`
(`game_environment.py` lines 118-150): home overpricing check, away
overpricing check, home PDO check, away PDO check, in that order.
A dataclass instance is always truthy, so Python's `if home_quality`
is `home_quality is not None`. -/
def divergence_flags (entry : GameSlateEntry)
    (home_quality away_quality : Option TeamShotQuality) : List String :=
  offense_flags home_quality entry.home_team entry.home_implied_total ++
  offense_flags away_quality entry.away_team entry.away_implied_total ++
  luck_flags home_quality entry.home_team ++
  luck_flags away_quality entry.away_team

/-- `_check_divergence` (`game_environment.py` lines 112-154): annotate the
entry with the divergence flag and the semicolon-joined detail when any
rule fired; leave the entry untouched otherwise. -/
def check_divergence (entry : GameSlateEntry)
    (home_quality away_quality : Option TeamShotQuality) : GameSlateEntry :=
  let flags := divergence_flags entry home_quality away_quality
  if flags.isEmpty then entry
  else { entry with divergence_flag := true, divergence_detail := semijoin flags }

/-- `_classify_environment` (`game_environment.py` lines 157-265): assign a
tier and a rationale.  The if/elif/return chain of the source becomes a
nested conditional; each `return` is a branch result. -/
def classify_environment (entry : GameSlateEntry)
    (home_quality away_quality : Option TeamShotQuality) : GameSlateEntry :=
  let total := entry.total
  match home_quality, away_quality with
  | some hq, some aq =>
    let home_hdcf := hq.hdcf_pct.getD 50
    let away_hdcf := aq.hdcf_pct.getD 50
    let home_strong := STRONG_HDCF_PCT ≤ home_hdcf
    let away_strong := STRONG_HDCF_PCT ≤ away_hdcf
    let home_weak := home_hdcf < WEAK_HDCF_PCT
    let away_weak := away_hdcf < WEAK_HDCF_PCT
    if HIGH_TOTAL_THRESHOLD ≤ total ∧ home_strong ∧ away_strong then
      { entry with
        environment := GameEnvironment.chalk,
        environment_reason :=
          "High total (" ++ fmt1 total ++ ") with strong shot quality on both sides (home HDCF% "
            ++ fmt1 home_hdcf ++ ", away HDCF% " ++ fmt1 away_hdcf
            ++ "). Expect high ownership — core game for the slate." }
    else if MODERATE_TOTAL_THRESHOLD ≤ total then
      if home_strong ∧ away_weak then
        { entry with
          environment := GameEnvironment.leverage,
          environment_reason :=
            "Total " ++ fmt1 total ++ " with " ++ entry.home_team
              ++ " dominating shot quality (HDCF% " ++ fmt1 home_hdcf ++ " vs "
              ++ fmt1 away_hdcf
              ++ "). Home stacks are the play — the quality edge is real." }
      else if away_strong ∧ home_weak then
        { entry with
          environment := GameEnvironment.leverage,
          environment_reason :=
            "Total " ++ fmt1 total ++ " with " ++ entry.away_team
              ++ " dominating shot quality (HDCF% " ++ fmt1 away_hdcf ++ " vs "
              ++ fmt1 home_hdcf
              ++ "). Away stacks are the play — the quality edge is real." }
      else if HIGH_TOTAL_THRESHOLD ≤ total then
        { entry with
          environment := GameEnvironment.chalk,
          environment_reason :=
            "High total (" ++ fmt1 total
              ++ ") with moderate shot quality on both sides (home HDCF% "
              ++ fmt1 home_hdcf ++ ", away HDCF% " ++ fmt1 away_hdcf ++ ")." }
      else
        { entry with
          environment := GameEnvironment.leverage,
          environment_reason :=
            "Moderate total (" ++ fmt1 total
              ++ ") with balanced shot quality (home HDCF% " ++ fmt1 home_hdcf
              ++ ", away HDCF% " ++ fmt1 away_hdcf ++ ")." }
    else if entry.divergence_flag then
      { entry with
        environment := GameEnvironment.contrarian,
        environment_reason :=
          "Divergence detected — Vegas total (" ++ fmt1 total
            ++ ") disagrees with shot quality. Low ownership expected. GPP-only play." }
    else if total < MODERATE_TOTAL_THRESHOLD then
      if home_strong ∨ away_strong then
        { entry with
          environment := GameEnvironment.contrarian,
          environment_reason :=
            "Low total (" ++ fmt1 total ++ ") but "
              ++ (if home_strong then "home" else "away") ++ " team "
              ++ "has strong shot quality. Low ownership = GPP upside." }
      else
        { entry with
          environment := GameEnvironment.avoid,
          environment_reason :=
            "Low total (" ++ fmt1 total
              ++ ") with weak shot quality on both sides (home HDCF% "
              ++ fmt1 home_hdcf ++ ", away HDCF% " ++ fmt1 away_hdcf
              ++ "). No edge." }
    else
      { entry with
        environment := GameEnvironment.avoid,
        environment_reason := "No clear classification — insufficient signal." }
  | _, _ =>
    if HIGH_TOTAL_THRESHOLD ≤ total then
      { entry with
        environment := GameEnvironment.chalk,
        environment_reason :=
          "High total (" ++ fmt1 total
            ++ ") — no shot quality data to differentiate further" }
    else if MODERATE_TOTAL_THRESHOLD ≤ total then
      { entry with
        environment := GameEnvironment.leverage,
        environment_reason :=
          "Moderate total (" ++ fmt1 total ++ ") — no shot quality data available" }
    else
      { entry with
        environment := GameEnvironment.contrarian,
        environment_reason := "Low total (" ++ fmt1 total ++ ")" }

/-- The `GameSlateEntry(...)` constructor call at the top of `classify_game`
(`game_environment.py` lines 76-86). -/
def base_entry (odds : GameOdds) : GameSlateEntry :=
  { home_team := odds.home_team
    away_team := odds.away_team
    commence_time := odds.commence_time
    total := odds.total
    home_implied_total := odds.home_implied_total
    away_implied_total := odds.away_implied_total
    home_ml := odds.home_ml
    away_ml := odds.away_ml
    home_spread := odds.home_spread }

/-- The two "attach shot quality data if available" blocks of `classify_game`
(`game_environment.py` lines 88-101). -/
def attach_quality (entry : GameSlateEntry)
    (home_quality away_quality : Option TeamShotQuality) : GameSlateEntry :=
  let entry :=
    match home_quality with
    | some q =>
      { entry with
        home_hdcf_pct := q.hdcf_pct
        home_xgf_pct := q.xgf_pct
        home_hdcf_per_60 := q.hdcf_per_60
        home_hdca_per_60 := q.hdca_per_60
        home_pdo := q.pdo }
    | none => entry
  match away_quality with
  | some q =>
    { entry with
      away_hdcf_pct := q.hdcf_pct
      away_xgf_pct := q.xgf_pct
      away_hdcf_per_60 := q.hdcf_per_60
      away_hdca_per_60 := q.hdca_per_60
      away_pdo := q.pdo }
  | none => entry

/-- `classify_game` (`game_environment.py` lines 61-109): build the entry,
attach available quality data, run divergence detection, then classify. -/
def classify_game (odds : GameOdds)
    (home_quality away_quality : Option TeamShotQuality) : GameSlateEntry :=
  classify_environment
    (check_divergence (attach_quality (base_entry odds) home_quality away_quality)
      home_quality away_quality)
    home_quality away_quality

/-- `_find_team_quality` (`game_environment.py` lines 300-320): exact key
lookup first, then the first key that is a substring of the team name or of
which the team name is a substring. -/
def find_team_quality (team_name : String)
    (shot_quality : List (String × TeamShotQuality)) : Option TeamShotQuality :=
  match shot_quality.find? (fun p => p.1 == team_name) with
  | some p => some p.2
  | none =>
    match shot_quality.find? (fun p =>
        strContains team_name p.1 || strContains p.1 team_name) with
    | some p => some p.2
    | none => none

/-- The `tier_order` dict of `build_slate_breakdown`
(`game_environment.py` lines 289-294); every constructor is a key, so the
`.get(..., 99)` default is never taken. -/
def tier_order : GameEnvironment → Nat
  | GameEnvironment.chalk => 0
  | GameEnvironment.leverage => 1
  | GameEnvironment.contrarian => 2
  | GameEnvironment.avoid => 3

/-- The total preorder corresponding to Python's sort key
`(tier_order[g.environment], -g.total)` in `build_slate_breakdown`
(line 295): ascending tier rank, then descending total. -/
def slateLe (g₁ g₂ : GameSlateEntry) : Prop :=
  tier_order g₁.environment < tier_order g₂.environment ∨
    (tier_order g₁.environment = tier_order g₂.environment ∧ g₂.total ≤ g₁.total)

instance : DecidableRel slateLe := fun g₁ g₂ => by
  unfold slateLe; infer_instance

/-- `build_slate_breakdown` (`game_environment.py` lines 268-297): classify
every game, then stable-sort by `(tier rank, -total)`.  Python's `list.sort`
is a stable sort for the key order `slateLe`; `List.insertionSort slateLe`
is also a stable sort for `slateLe` (sortedness and stability are proved
below, and together they determine the output list uniquely), so it is a
faithful model of the sort. -/
def build_slate_breakdown (odds_list : List GameOdds)
    (shot_quality : List (String × TeamShotQuality)) : SlateBreakdown :=
  let games := odds_list.map (fun odds =>
    classify_game odds
      (find_team_quality odds.home_team shot_quality)
      (find_team_quality odds.away_team shot_quality))
  { games := List.insertionSort slateLe games }

/-! ### String helper lemmas -/

lemma strContains_iff {s sub : String} : strContains s sub = true ↔ sub.data <:+: s.data := by
  unfold strContains
  exact decide_eq_true_iff

lemma strContains_refl (s : String) : strContains s s = true :=
  strContains_iff.mpr (List.infix_refl _)

lemma strContains_append_left {s m : String} (t : String)
    (h : strContains s m = true) : strContains (s ++ t) m = true := by
  rw [strContains_iff] at h ⊢
  rw [String.data_append]
  exact h.trans (List.prefix_append _ _).isInfix

lemma strContains_append_right {s m : String} (t : String)
    (h : strContains s m = true) : strContains (t ++ s) m = true := by
  rw [strContains_iff] at h ⊢
  rw [String.data_append]
  exact h.trans (List.suffix_append _ _).isInfix

lemma strContains_semijoin {m : String} {l : List String} (h : m ∈ l) :
    strContains (semijoin l) m = true := by
  induction l with
  | nil => cases h
  | cons s rest ih =>
    cases rest with
    | nil =>
      rw [List.mem_singleton] at h
      subst h
      exact strContains_refl _
    | cons s' rest' =>
      rcases List.mem_cons.mp h with rfl | hm
      · show strContains (m ++ "; " ++ semijoin (s' :: rest')) m = true
        exact strContains_append_left _ (strContains_append_left _ (strContains_refl m))
      · show strContains (s ++ "; " ++ semijoin (s' :: rest')) m = true
        exact strContains_append_right _ (ih hm)

lemma str_append_data_ne_nil_left {s : String} (t : String) (h : s.data ≠ []) :
    (s ++ t).data ≠ [] := by
  rw [String.data_append]
  simp [List.append_eq_nil, h]

lemma str_append_data_ne_nil_right {t : String} (s : String) (h : t.data ≠ []) :
    (s ++ t).data ≠ [] := by
  rw [String.data_append]
  simp [List.append_eq_nil, h]

lemma semijoin_data_ne_nil {l : List String} (hl : l ≠ [])
    (hm : ∀ m ∈ l, m.data ≠ []) : (semijoin l).data ≠ [] := by
  cases l with
  | nil => exact absurd rfl hl
  | cons s rest =>
    cases rest with
    | nil => exact hm s (List.mem_singleton.mpr rfl)
    | cons s' rest' =>
      show ((s ++ "; ") ++ semijoin (s' :: rest')).data ≠ []
      exact str_append_data_ne_nil_left _
        (str_append_data_ne_nil_left _ (hm s (List.mem_cons_self _ _)))

lemma str_ne_of_data_head {s t : String} (h : s.data.head? ≠ t.data.head?) : s ≠ t :=
  fun he => h (by rw [he])

lemma overpricing_msg_data_ne_nil (team : String) (implied hdcf : ℚ) :
    (overpricing_msg team implied hdcf).data ≠ [] :=
  str_append_data_ne_nil_right _ (by decide)

lemma pdo_msg_data_ne_nil (team : String) (pdo : ℚ) :
    (pdo_msg team pdo).data ≠ [] :=
  str_append_data_ne_nil_right _ (by decide)

lemma mem_offense_flags {quality : Option TeamShotQuality} {team : String}
    {implied_total : ℚ} {m : String} (h : m ∈ offense_flags quality team implied_total) :
    ∃ q p, quality = some q ∧ q.hdcf_pct = some p
      ∧ DIVERGENCE_TOTAL_THRESHOLD ≤ implied_total ∧ p < DIVERGENCE_HDCF_THRESHOLD
      ∧ m = overpricing_msg team implied_total p := by
  rcases quality with _ | q
  · simp [offense_flags] at h
  · rcases hdc : q.hdcf_pct with _ | p
    · simp [offense_flags, hdc] at h
    · by_cases hc : DIVERGENCE_TOTAL_THRESHOLD ≤ implied_total
          ∧ p < DIVERGENCE_HDCF_THRESHOLD
      · simp only [offense_flags, hdc, if_pos hc, List.mem_singleton] at h
        exact ⟨q, p, rfl, hdc, hc.1, hc.2, h⟩
      · simp [offense_flags, hdc, if_neg hc] at h

lemma mem_luck_flags {quality : Option TeamShotQuality} {team : String}
    {m : String} (h : m ∈ luck_flags quality team) :
    ∃ q p, quality = some q ∧ q.pdo = some p ∧ HIGH_PDO < p
      ∧ m = pdo_msg team p := by
  rcases quality with _ | q
  · simp [luck_flags] at h
  · rcases hpd : q.pdo with _ | p
    · simp [luck_flags, hpd] at h
    · by_cases hc : HIGH_PDO < p
      · simp only [luck_flags, hpd, if_pos hc, List.mem_singleton] at h
        exact ⟨q, p, rfl, hpd, hc, h⟩
      · simp [luck_flags, hpd, if_neg hc] at h

lemma offense_flags_ne_nil_iff (quality : Option TeamShotQuality) (team : String)
    (implied_total : ℚ) :
    offense_flags quality team implied_total ≠ [] ↔
      ∃ q p, quality = some q ∧ q.hdcf_pct = some p
        ∧ DIVERGENCE_TOTAL_THRESHOLD ≤ implied_total ∧ p < DIVERGENCE_HDCF_THRESHOLD := by
  constructor
  · intro h
    rcases List.exists_mem_of_ne_nil _ h with ⟨m, hm⟩
    rcases mem_offense_flags hm with ⟨q, p, h1, h2, h3, h4, -⟩
    exact ⟨q, p, h1, h2, h3, h4⟩
  · rintro ⟨q, p, rfl, h2, h3, h4⟩
    simp [offense_flags, h2, h3, h4]

lemma luck_flags_ne_nil_iff (quality : Option TeamShotQuality) (team : String) :
    luck_flags quality team ≠ [] ↔
      ∃ q p, quality = some q ∧ q.pdo = some p ∧ HIGH_PDO < p := by
  constructor
  · intro h
    rcases List.exists_mem_of_ne_nil _ h with ⟨m, hm⟩
    rcases mem_luck_flags hm with ⟨q, p, h1, h2, h3, -⟩
    exact ⟨q, p, h1, h2, h3⟩
  · rintro ⟨q, p, rfl, h2, h3⟩
    simp [luck_flags, h2, h3]

/-- Every message that `_check_divergence` can put into its `flags` list is a
non-empty string. -/
lemma mem_divergence_flags_data_ne_nil {entry : GameSlateEntry}
    {hq aq : Option TeamShotQuality} {m : String}
    (h : m ∈ divergence_flags entry hq aq) : m.data ≠ [] := by
  unfold divergence_flags at h
  simp only [List.mem_append] at h
  rcases h with ((h | h) | h) | h
  · rcases mem_offense_flags h with ⟨q, p, -, -, -, -, rfl⟩
    exact overpricing_msg_data_ne_nil _ _ _
  · rcases mem_offense_flags h with ⟨q, p, -, -, -, -, rfl⟩
    exact overpricing_msg_data_ne_nil _ _ _
  · rcases mem_luck_flags h with ⟨q, p, -, -, -, rfl⟩
    exact pdo_msg_data_ne_nil _ _
  · rcases mem_luck_flags h with ⟨q, p, -, -, -, rfl⟩
    exact pdo_msg_data_ne_nil _ _

/-- The flag list is non-empty exactly when one of the four divergence rules
fires. -/
lemma divergence_flags_ne_nil_iff (entry : GameSlateEntry)
    (hq aq : Option TeamShotQuality) :
    divergence_flags entry hq aq ≠ [] ↔
      (∃ q p, hq = some q ∧ q.hdcf_pct = some p
        ∧ DIVERGENCE_TOTAL_THRESHOLD ≤ entry.home_implied_total
        ∧ p < DIVERGENCE_HDCF_THRESHOLD) ∨
      (∃ q p, aq = some q ∧ q.hdcf_pct = some p
        ∧ DIVERGENCE_TOTAL_THRESHOLD ≤ entry.away_implied_total
        ∧ p < DIVERGENCE_HDCF_THRESHOLD) ∨
      (∃ q p, hq = some q ∧ q.pdo = some p ∧ HIGH_PDO < p) ∨
      (∃ q p, aq = some q ∧ q.pdo = some p ∧ HIGH_PDO < p) := by
  have hsplit : divergence_flags entry hq aq ≠ [] ↔
      (offense_flags hq entry.home_team entry.home_implied_total ≠ [] ∨
       offense_flags aq entry.away_team entry.away_implied_total ≠ [] ∨
       luck_flags hq entry.home_team ≠ [] ∨
       luck_flags aq entry.away_team ≠ []) := by
    unfold divergence_flags
    simp only [ne_eq, List.append_eq_nil, not_and_or]
    tauto
  rw [hsplit, offense_flags_ne_nil_iff, offense_flags_ne_nil_iff,
    luck_flags_ne_nil_iff, luck_flags_ne_nil_iff]

/-! ### Pipeline projection lemmas: which fields each stage leaves unchanged -/

/-- `_check_divergence` only writes `divergence_flag` and `divergence_detail`. -/
lemma check_divergence_spec (e : GameSlateEntry) (hq aq : Option TeamShotQuality) :
    ∃ b d, check_divergence e hq aq =
      { e with divergence_flag := b, divergence_detail := d } := by
  unfold check_divergence
  dsimp only
  split
  · exact ⟨e.divergence_flag, e.divergence_detail, rfl⟩
  · exact ⟨true, semijoin (divergence_flags e hq aq), rfl⟩

/-- `_classify_environment` only writes `environment` and `environment_reason`. -/
lemma classify_environment_spec (e : GameSlateEntry) (hq aq : Option TeamShotQuality) :
    ∃ env r, classify_environment e hq aq =
      { e with environment := env, environment_reason := r } := by
  unfold classify_environment
  cases hq <;> cases aq <;> dsimp only <;> (repeat' split) <;> exact ⟨_, _, rfl⟩

@[simp] lemma classify_environment_divergence_flag (e : GameSlateEntry)
    (hq aq : Option TeamShotQuality) :
    (classify_environment e hq aq).divergence_flag = e.divergence_flag := by
  obtain ⟨env, r, h⟩ := classify_environment_spec e hq aq
  rw [h]

@[simp] lemma classify_environment_divergence_detail (e : GameSlateEntry)
    (hq aq : Option TeamShotQuality) :
    (classify_environment e hq aq).divergence_detail = e.divergence_detail := by
  obtain ⟨env, r, h⟩ := classify_environment_spec e hq aq
  rw [h]

@[simp] lemma classify_environment_home_hdcf_pct (e : GameSlateEntry)
    (hq aq : Option TeamShotQuality) :
    (classify_environment e hq aq).home_hdcf_pct = e.home_hdcf_pct := by
  obtain ⟨env, r, h⟩ := classify_environment_spec e hq aq
  rw [h]

@[simp] lemma classify_environment_away_hdcf_pct (e : GameSlateEntry)
    (hq aq : Option TeamShotQuality) :
    (classify_environment e hq aq).away_hdcf_pct = e.away_hdcf_pct := by
  obtain ⟨env, r, h⟩ := classify_environment_spec e hq aq
  rw [h]

@[simp] lemma classify_environment_home_pdo (e : GameSlateEntry)
    (hq aq : Option TeamShotQuality) :
    (classify_environment e hq aq).home_pdo = e.home_pdo := by
  obtain ⟨env, r, h⟩ := classify_environment_spec e hq aq
  rw [h]

@[simp] lemma classify_environment_away_pdo (e : GameSlateEntry)
    (hq aq : Option TeamShotQuality) :
    (classify_environment e hq aq).away_pdo = e.away_pdo := by
  obtain ⟨env, r, h⟩ := classify_environment_spec e hq aq
  rw [h]

@[simp] lemma check_divergence_total (e : GameSlateEntry) (hq aq : Option TeamShotQuality) :
    (check_divergence e hq aq).total = e.total := by
  obtain ⟨b, d, h⟩ := check_divergence_spec e hq aq
  rw [h]

@[simp] lemma check_divergence_home_team (e : GameSlateEntry) (hq aq : Option TeamShotQuality) :
    (check_divergence e hq aq).home_team = e.home_team := by
  obtain ⟨b, d, h⟩ := check_divergence_spec e hq aq
  rw [h]

@[simp] lemma check_divergence_away_team (e : GameSlateEntry) (hq aq : Option TeamShotQuality) :
    (check_divergence e hq aq).away_team = e.away_team := by
  obtain ⟨b, d, h⟩ := check_divergence_spec e hq aq
  rw [h]

@[simp] lemma check_divergence_home_hdcf_pct (e : GameSlateEntry)
    (hq aq : Option TeamShotQuality) :
    (check_divergence e hq aq).home_hdcf_pct = e.home_hdcf_pct := by
  obtain ⟨b, d, h⟩ := check_divergence_spec e hq aq
  rw [h]

@[simp] lemma check_divergence_away_hdcf_pct (e : GameSlateEntry)
    (hq aq : Option TeamShotQuality) :
    (check_divergence e hq aq).away_hdcf_pct = e.away_hdcf_pct := by
  obtain ⟨b, d, h⟩ := check_divergence_spec e hq aq
  rw [h]

@[simp] lemma check_divergence_home_pdo (e : GameSlateEntry)
    (hq aq : Option TeamShotQuality) :
    (check_divergence e hq aq).home_pdo = e.home_pdo := by
  obtain ⟨b, d, h⟩ := check_divergence_spec e hq aq
  rw [h]

@[simp] lemma check_divergence_away_pdo (e : GameSlateEntry)
    (hq aq : Option TeamShotQuality) :
    (check_divergence e hq aq).away_pdo = e.away_pdo := by
  obtain ⟨b, d, h⟩ := check_divergence_spec e hq aq
  rw [h]

/-- The divergence rules read only the two team names and the two implied
totals from the entry, so any entry with the same four fields produces the
same flag list. -/
lemma divergence_flags_congr {e e' : GameSlateEntry} (hq aq : Option TeamShotQuality)
    (h1 : e.home_team = e'.home_team) (h2 : e.away_team = e'.away_team)
    (h3 : e.home_implied_total = e'.home_implied_total)
    (h4 : e.away_implied_total = e'.away_implied_total) :
    divergence_flags e hq aq = divergence_flags e' hq aq := by
  unfold divergence_flags
  rw [h1, h2, h3, h4]

/-- The flag list of `check_divergence`, and hence of `classify_game`,
computed directly from the odds: the entry built by `classify_game` carries
the odds fields unchanged. -/
lemma attach_base_divergence_flags (odds : GameOdds) (hq aq : Option TeamShotQuality) :
    divergence_flags (attach_quality (base_entry odds) hq aq) hq aq =
      divergence_flags (base_entry odds) hq aq := by
  refine divergence_flags_congr hq aq ?_ ?_ ?_ ?_ <;>
    (unfold attach_quality; cases hq <;> cases aq <;> rfl)

lemma classify_game_divergence_flag_eq (odds : GameOdds) (hq aq : Option TeamShotQuality) :
    (classify_game odds hq aq).divergence_flag =
      !(divergence_flags (base_entry odds) hq aq).isEmpty := by
  unfold classify_game
  rw [classify_environment_divergence_flag]
  unfold check_divergence
  rw [attach_base_divergence_flags]
  dsimp only
  split
  · next hemp =>
    rw [hemp]
    unfold attach_quality
    cases hq <;> cases aq <;> rfl
  · next hemp => simp [hemp]

lemma classify_game_divergence_detail_eq (odds : GameOdds) (hq aq : Option TeamShotQuality) :
    (classify_game odds hq aq).divergence_detail =
      semijoin (divergence_flags (base_entry odds) hq aq) := by
  unfold classify_game
  rw [classify_environment_divergence_detail]
  unfold check_divergence
  rw [attach_base_divergence_flags]
  dsimp only
  split
  · next hemp =>
    rw [List.isEmpty_iff] at hemp
    rw [hemp]
    unfold attach_quality
    cases hq <;> cases aq <;> rfl
  · rfl

/-! ### Sorting lemmas for the slate aggregator -/

/-- The Python sort key `(tier_order[g.environment], -g.total)`, as the pair
(tier rank, total); `slateLe` is the lexicographic order on this key with the
total compared in reverse. -/
def slateKey (g : GameSlateEntry) : Nat × ℚ :=
  (tier_order g.environment, g.total)

lemma slateLe_of_key_eq {a b : GameSlateEntry} (h : slateKey a = slateKey b) :
    slateLe a b := by
  unfold slateKey at h
  rw [Prod.mk.injEq] at h
  exact Or.inr ⟨h.1, le_of_eq h.2.symm⟩

instance : IsTotal GameSlateEntry slateLe :=
  ⟨fun a b => by
    unfold slateLe
    rcases lt_trichotomy (tier_order a.environment) (tier_order b.environment)
      with h | h | h
    · exact Or.inl (Or.inl h)
    · rcases le_total b.total a.total with ht | ht
      · exact Or.inl (Or.inr ⟨h, ht⟩)
      · exact Or.inr (Or.inr ⟨h.symm, ht⟩)
    · exact Or.inr (Or.inl h)⟩

instance : IsTrans GameSlateEntry slateLe :=
  ⟨fun a b c hab hbc => by
    unfold slateLe at hab hbc ⊢
    rcases hab with h1 | ⟨h1, t1⟩ <;> rcases hbc with h2 | ⟨h2, t2⟩
    · exact Or.inl (h1.trans h2)
    · exact Or.inl (h2 ▸ h1)
    · exact Or.inl (h1 ▸ h2)
    · exact Or.inr ⟨h1.trans h2, t2.trans t1⟩⟩

/-- Stability of one insertion step, seen through the elements with a given
sort key: inserting `a` puts it in front of exactly the elements with the
same key. -/
lemma filter_key_orderedInsert (a : GameSlateEntry) (l : List GameSlateEntry)
    (c : Nat × ℚ) :
    (List.orderedInsert slateLe a l).filter (fun g => decide (slateKey g = c)) =
      if slateKey a = c then
        a :: l.filter (fun g => decide (slateKey g = c))
      else l.filter (fun g => decide (slateKey g = c)) := by
  induction l with
  | nil =>
    by_cases hac : slateKey a = c <;>
      simp [List.orderedInsert, List.filter_cons, hac]
  | cons y ys ih =>
    by_cases hay : slateLe a y
    · rw [List.orderedInsert, if_pos hay]
      by_cases hac : slateKey a = c <;>
        simp [List.filter_cons, hac]
    · rw [List.orderedInsert, if_neg hay, List.filter_cons]
      by_cases hyc : slateKey y = c
      · have hac : slateKey a ≠ c := by
          intro hac
          exact hay (slateLe_of_key_eq (hac.trans hyc.symm))
        simp [ih, if_neg hac, List.filter_cons, hyc]
      · by_cases hac : slateKey a = c <;>
          simp [ih, List.filter_cons, hac, hyc]

/-- Stability of the whole sort: for every sort key value, the entries
carrying that key appear in the sorted list exactly as they appeared in the
input list. -/
lemma filter_key_insertionSort (l : List GameSlateEntry) (c : Nat × ℚ) :
    (List.insertionSort slateLe l).filter (fun g => decide (slateKey g = c)) =
      l.filter (fun g => decide (slateKey g = c)) := by
  induction l with
  | nil => rfl
  | cons a l ih =>
    rw [List.insertionSort, filter_key_orderedInsert, ih, List.filter_cons]
    by_cases hac : slateKey a = c <;> simp [hac]

lemma str_ne_empty_of_head {s : String} {c : Char} (h : s.data.head? = some c) :
    s ≠ "" := by
  intro he
  rw [he] at h
  cases h

lemma str_ne_of_head_ne {s t : String} {c₁ c₂ : Char} (h₁ : s.data.head? = some c₁)
    (h₂ : t.data.head? = some c₂) (hne : c₁ ≠ c₂) : s ≠ t := by
  intro he
  rw [he, h₂] at h₁
  exact hne (Option.some_inj.mp h₁).symm

/-- The `_classify_environment` arm taken when at least one side has no
metrics record (`has_quality_data` false, lines 166-181): classify on the
total alone. -/
lemma classify_environment_nodata (e : GameSlateEntry) (hq aq : Option TeamShotQuality)
    (hna : hq = none ∨ aq = none) :
    classify_environment e hq aq =
      if HIGH_TOTAL_THRESHOLD ≤ e.total then
        { e with environment := GameEnvironment.chalk,
                 environment_reason := "High total (" ++ fmt1 e.total
                   ++ ") — no shot quality data to differentiate further" }
      else if MODERATE_TOTAL_THRESHOLD ≤ e.total then
        { e with environment := GameEnvironment.leverage,
                 environment_reason := "Moderate total (" ++ fmt1 e.total
                   ++ ") — no shot quality data available" }
      else
        { e with environment := GameEnvironment.contrarian,
                 environment_reason := "Low total (" ++ fmt1 e.total ++ ")" } := by
  rcases hna with rfl | rfl
  · rfl
  · rcases hq with _ | q <;> rfl

lemma mod_le_high : MODERATE_TOTAL_THRESHOLD ≤ HIGH_TOTAL_THRESHOLD := by
  norm_num [HIGH_TOTAL_THRESHOLD, MODERATE_TOTAL_THRESHOLD]

/-! ### The claims -/

/-- The metrics record `m1` of the registry-fallback scenario of the spec. -/
def carolina_metrics : TeamShotQuality :=
  { team_abbrev := "CAR", games := 20, hdcf_pct := some 52 }

/-- C1: the spec's registry-fallback scenario — given the mapping
`{"CAR": m1}` and the identifier `"Carolina Hurricanes"`, resolve is claimed
to return `m1`.  The code in fact returns no match: the exact lookup fails,
and the substring fallback is case-sensitive (`"CAR"` is not a substring of
`"Carolina Hurricanes"`, whose third letter is lowercase, and the full name
is not a substring of `"CAR"`), so `_find_team_quality` returns `None`,
contradicting both the spec scenario and the function's own comment
"(handles "Carolina Hurricanes" matching "CAR")". -/
theorem C1_registry_fallback_returns_none :
    find_team_quality "Carolina Hurricanes" [("CAR", carolina_metrics)] = none := by
  rfl

/-- C4: for every slate entry produced by classification — any odds quote and
any combination of present or absent metrics — the divergence flag is true
exactly when the divergence detail string is non-empty. -/
theorem C4_divergence_flag_iff_detail (odds : GameOdds)
    (hq aq : Option TeamShotQuality) :
    ((classify_game odds hq aq).divergence_flag = true ↔
      0 < (classify_game odds hq aq).divergence_detail.length) := by
  rw [classify_game_divergence_flag_eq, classify_game_divergence_detail_eq]
  rcases hfl : divergence_flags (base_entry odds) hq aq with _ | ⟨m, rest⟩
  · simp [semijoin]
  · simp only [List.isEmpty_cons, Bool.not_false]
    refine ⟨fun _ => ?_, fun _ => trivial⟩
    have hmem : ∀ x ∈ m :: rest, x.data ≠ [] := fun x hx =>
      mem_divergence_flags_data_ne_nil (hfl ▸ hx)
    exact List.length_pos.mpr (semijoin_data_ne_nil (List.cons_ne_nil m rest) hmem)

/-- C3: the breakdown built by the slate aggregator lists entries in
non-decreasing tier rank and, within equal tier rank, non-increasing total;
entries with the same sort key keep their original (classified odds-list)
order; and the empty odds list yields an empty breakdown. -/
theorem C3_breakdown_sorted_stable_empty (odds_list : List GameOdds)
    (sq : List (String × TeamShotQuality)) :
    List.Pairwise
      (fun g₁ g₂ => tier_order g₁.environment ≤ tier_order g₂.environment ∧
        (tier_order g₁.environment = tier_order g₂.environment → g₂.total ≤ g₁.total))
      (build_slate_breakdown odds_list sq).games ∧
    (∀ c : Nat × ℚ,
      ((build_slate_breakdown odds_list sq).games.filter
          (fun g => decide (slateKey g = c))) =
        ((odds_list.map (fun odds =>
            classify_game odds (find_team_quality odds.home_team sq)
              (find_team_quality odds.away_team sq))).filter
          (fun g => decide (slateKey g = c)))) ∧
    (build_slate_breakdown [] sq).games = [] := by
  refine ⟨?_, fun c => filter_key_insertionSort _ c, rfl⟩
  refine List.Pairwise.imp ?_ (List.sorted_insertionSort slateLe _)
  intro a b hab
  rcases hab with h | ⟨h, ht⟩
  · exact ⟨le_of_lt h, fun he => absurd he (ne_of_lt h)⟩
  · exact ⟨le_of_eq h, fun _ => ht⟩

/-- C5: with metrics absent for both sides the tier is chosen by the total
alone — at least 6.0 gives Strong-Consensus (chalk), at least 5.5 but below
6.0 gives Edge (leverage), below 5.5 gives Contrarian — and the rationale is
non-empty, mentions the total, and in the first two cases states the absence
of quality data. -/
theorem C5_no_metrics_total_only (odds : GameOdds) :
    (HIGH_TOTAL_THRESHOLD ≤ odds.total →
      (classify_game odds none none).environment = GameEnvironment.chalk ∧
      strContains (classify_game odds none none).environment_reason
        (fmt1 odds.total) = true ∧
      strContains (classify_game odds none none).environment_reason
        "no shot quality data" = true) ∧
    (MODERATE_TOTAL_THRESHOLD ≤ odds.total → odds.total < HIGH_TOTAL_THRESHOLD →
      (classify_game odds none none).environment = GameEnvironment.leverage ∧
      strContains (classify_game odds none none).environment_reason
        (fmt1 odds.total) = true ∧
      strContains (classify_game odds none none).environment_reason
        "no shot quality data" = true) ∧
    (odds.total < MODERATE_TOTAL_THRESHOLD →
      (classify_game odds none none).environment = GameEnvironment.contrarian ∧
      strContains (classify_game odds none none).environment_reason
        (fmt1 odds.total) = true) ∧
    (classify_game odds none none).environment_reason ≠ "" := by
  have hcg : classify_game odds none none =
      classify_environment
        (check_divergence (attach_quality (base_entry odds) none none) none none)
        none none := rfl
  have htot : (check_divergence (attach_quality (base_entry odds) none none)
      none none).total = odds.total := by
    rw [check_divergence_total]
    rfl
  rw [hcg, classify_environment_nodata _ none none (Or.inl rfl), htot]
  refine ⟨fun h6 => ?_, fun h55 h6 => ?_, fun h55 => ?_, ?_⟩
  · rw [if_pos h6]
    refine ⟨rfl, ?_, ?_⟩
    · exact strContains_append_left _ (strContains_append_right _ (strContains_refl _))
    · exact strContains_append_right _ (by decide)
  · rw [if_neg (not_le.mpr h6), if_pos h55]
    refine ⟨rfl, ?_, ?_⟩
    · exact strContains_append_left _ (strContains_append_right _ (strContains_refl _))
    · exact strContains_append_right _ (by decide)
  · have hmh : MODERATE_TOTAL_THRESHOLD ≤ HIGH_TOTAL_THRESHOLD := mod_le_high
    rw [if_neg (not_le.mpr (lt_of_lt_of_le h55 hmh)), if_neg (not_le.mpr h55)]
    exact ⟨rfl, strContains_append_left _ (strContains_append_right _ (strContains_refl _))⟩
  · split
    · exact str_ne_empty_of_head (c := 'H') rfl
    · split
      · exact str_ne_empty_of_head (c := 'M') rfl
      · exact str_ne_empty_of_head (c := 'L') rfl

/-- A concrete odds quote with total 6.0 for the Scenario D witness. -/
def scenario_d_odds : GameOdds :=
  { event_id := "d", home_team := "Home Team", away_team := "Away Team",
    commence_time := none, home_ml := -110, away_ml := -110,
    home_spread := none, total := 6, home_implied_total := 3,
    away_implied_total := 3 }

/-- Witness for C5 at the spec's Scenario D: total 6.0, metrics absent for
both sides, tier Strong-Consensus with a rationale citing missing quality
data. -/
theorem C5_no_metrics_total_only_witness :
    (classify_game scenario_d_odds none none).environment = GameEnvironment.chalk ∧
    strContains (classify_game scenario_d_odds none none).environment_reason
      "no shot quality data" = true :=
  ⟨((C5_no_metrics_total_only scenario_d_odds).1 (by norm_num
      [HIGH_TOTAL_THRESHOLD, scenario_d_odds])).1,
   ((C5_no_metrics_total_only scenario_d_odds).1 (by norm_num
      [HIGH_TOTAL_THRESHOLD, scenario_d_odds])).2.2⟩

lemma bnot_isEmpty_iff {α : Type} (l : List α) : (!l.isEmpty) = true ↔ l ≠ [] := by
  cases l <;> simp

/-- C2: the spec's Scenario B — total 5.5 with both sides' metrics present,
home high-danger share 56.3% and away 44.2%: the tier is Edge (leverage) and
the rationale names the home side as dominating; and whenever the away
implied total is at least 3.0, the divergence flag is set and the detail
contains the "market overpricing offense" message for the away side. -/
theorem C2_scenario_b_edge (odds : GameOdds) (hqv aqv : TeamShotQuality)
    (htot : odds.total = 11 / 2)
    (hh : hqv.hdcf_pct = some (563 / 10))
    (ha : aqv.hdcf_pct = some (221 / 5)) :
    ((classify_game odds (some hqv) (some aqv)).environment = GameEnvironment.leverage ∧
     strContains (classify_game odds (some hqv) (some aqv)).environment_reason
       odds.home_team = true ∧
     strContains (classify_game odds (some hqv) (some aqv)).environment_reason
       "dominating shot quality" = true) ∧
    (DIVERGENCE_TOTAL_THRESHOLD ≤ odds.away_implied_total →
      (classify_game odds (some hqv) (some aqv)).divergence_flag = true ∧
      strContains (classify_game odds (some hqv) (some aqv)).divergence_detail
        (overpricing_msg odds.away_team odds.away_implied_total (221 / 5)) = true) := by
  constructor
  · have hcg : classify_game odds (some hqv) (some aqv) =
        classify_environment
          (check_divergence (attach_quality (base_entry odds) (some hqv) (some aqv))
            (some hqv) (some aqv))
          (some hqv) (some aqv) := rfl
    have ht1 : (check_divergence (attach_quality (base_entry odds) (some hqv) (some aqv))
        (some hqv) (some aqv)).total = 11 / 2 := by
      rw [check_divergence_total]
      exact htot
    have hht : (check_divergence (attach_quality (base_entry odds) (some hqv) (some aqv))
        (some hqv) (some aqv)).home_team = odds.home_team := by
      rw [check_divergence_home_team]
      rfl
    rw [hcg]
    unfold classify_environment
    dsimp only
    rw [ht1, hh, ha, hht]
    norm_num [HIGH_TOTAL_THRESHOLD, MODERATE_TOTAL_THRESHOLD, STRONG_HDCF_PCT,
      WEAK_HDCF_PCT]
    refine ⟨?_, ?_⟩
    · exact strContains_append_left _ (strContains_append_left _
        (strContains_append_left _ (strContains_append_left _
          (strContains_append_left _ (strContains_append_right _
            (strContains_refl _))))))
    · exact strContains_append_left _ (strContains_append_left _
        (strContains_append_left _ (strContains_append_left _
          (strContains_append_right _ (by decide)))))
  · intro himp
    have hmem : overpricing_msg odds.away_team odds.away_implied_total (221 / 5) ∈
        divergence_flags (base_entry odds) (some hqv) (some aqv) := by
      unfold divergence_flags
      have hoff : offense_flags (some aqv) (base_entry odds).away_team
          (base_entry odds).away_implied_total =
          [overpricing_msg odds.away_team odds.away_implied_total (221 / 5)] := by
        simp only [offense_flags, ha]
        rw [if_pos]
        · rfl
        · exact ⟨himp, by norm_num [DIVERGENCE_HDCF_THRESHOLD]⟩
      simp [hoff]
    constructor
    · rw [classify_game_divergence_flag_eq, bnot_isEmpty_iff]
      exact List.ne_nil_of_mem hmem
    · rw [classify_game_divergence_detail_eq]
      exact strContains_semijoin hmem

/-- The odds quote for the Scenario B witness: total 5.5, away implied
total 3.0. -/
def scenario_b_odds : GameOdds :=
  { event_id := "b", home_team := "Home Team", away_team := "Away Team",
    commence_time := none, home_ml := -150, away_ml := 130,
    home_spread := some (-3/2), total := 11 / 2, home_implied_total := 5 / 2,
    away_implied_total := 3 }

def scenario_b_home : TeamShotQuality :=
  { team_abbrev := "HOM", games := 50, hdcf_pct := some (563 / 10) }

def scenario_b_away : TeamShotQuality :=
  { team_abbrev := "AWY", games := 50, hdcf_pct := some (221 / 5) }

/-- Witness for C2 at the concrete Scenario B input. -/
theorem C2_scenario_b_edge_witness :
    (classify_game scenario_b_odds (some scenario_b_home)
      (some scenario_b_away)).environment = GameEnvironment.leverage ∧
    (classify_game scenario_b_odds (some scenario_b_home)
      (some scenario_b_away)).divergence_flag = true :=
  ⟨(C2_scenario_b_edge scenario_b_odds scenario_b_home scenario_b_away rfl rfl
      rfl).1.1,
   ((C2_scenario_b_edge scenario_b_odds scenario_b_home scenario_b_away rfl rfl
      rfl).2 (by norm_num [scenario_b_odds, DIVERGENCE_TOTAL_THRESHOLD])).1⟩

/-- C8: with both sides' metrics present and a total below 5.5 (a missing
high-danger share counting as exactly 50.0): a set divergence flag gives
Contrarian (divergence trap); otherwise a quality share of at least 52.0 on
either side gives Contrarian (sneaky upside), and two shares below 52.0 give
Avoid (no edge). -/
theorem C8_low_total_branches (odds : GameOdds) (hqv aqv : TeamShotQuality)
    (htot : odds.total < MODERATE_TOTAL_THRESHOLD) :
    ((classify_game odds (some hqv) (some aqv)).divergence_flag = true →
      (classify_game odds (some hqv) (some aqv)).environment =
        GameEnvironment.contrarian) ∧
    ((classify_game odds (some hqv) (some aqv)).divergence_flag = false →
      ((STRONG_HDCF_PCT ≤ hqv.hdcf_pct.getD 50 ∨ STRONG_HDCF_PCT ≤ aqv.hdcf_pct.getD 50) →
        (classify_game odds (some hqv) (some aqv)).environment =
          GameEnvironment.contrarian) ∧
      (hqv.hdcf_pct.getD 50 < STRONG_HDCF_PCT → aqv.hdcf_pct.getD 50 < STRONG_HDCF_PCT →
        (classify_game odds (some hqv) (some aqv)).environment =
          GameEnvironment.avoid)) := by
  have hcg : classify_game odds (some hqv) (some aqv) =
      classify_environment
        (check_divergence (attach_quality (base_entry odds) (some hqv) (some aqv))
          (some hqv) (some aqv))
        (some hqv) (some aqv) := rfl
  have ht1 : (check_divergence (attach_quality (base_entry odds) (some hqv) (some aqv))
      (some hqv) (some aqv)).total = odds.total := by
    rw [check_divergence_total]
    rfl
  have hmh : ¬ HIGH_TOTAL_THRESHOLD ≤ odds.total := by
    intro h
    norm_num [HIGH_TOTAL_THRESHOLD, MODERATE_TOTAL_THRESHOLD] at h htot
    linarith
  have hflag := classify_environment_divergence_flag
    (check_divergence (attach_quality (base_entry odds) (some hqv) (some aqv))
      (some hqv) (some aqv)) (some hqv) (some aqv)
  rw [hcg] at *
  constructor
  · intro hf
    rw [hflag] at hf
    rw [hcg]
    unfold classify_environment
    dsimp only
    rw [ht1, if_neg (fun hand => hmh hand.1), if_neg (not_le.mpr htot), if_pos hf]
  · intro hf
    rw [hflag] at hf
    constructor
    · intro hstrong
      rw [hcg]
      unfold classify_environment
      dsimp only
      rw [ht1, if_neg (fun hand => hmh hand.1), if_neg (not_le.mpr htot),
        if_neg (by simp [hf]), if_pos htot, if_pos hstrong]
    · intro hhw haw
      rw [hcg]
      unfold classify_environment
      dsimp only
      rw [ht1, if_neg (fun hand => hmh hand.1), if_neg (not_le.mpr htot),
        if_neg (by simp [hf]), if_pos htot,
        if_neg (by rintro (hs | hs) <;> [exact absurd hs (not_le.mpr hhw);
          exact absurd hs (not_le.mpr haw)])]

/-- The odds quote for the Scenario C witness: total 5.0, implied totals
below the divergence threshold. -/
def scenario_c_odds : GameOdds :=
  { event_id := "c", home_team := "Home Team", away_team := "Away Team",
    commence_time := none, home_ml := -120, away_ml := 100,
    home_spread := some (-3/2), total := 5, home_implied_total := 13 / 5,
    away_implied_total := 12 / 5 }

def scenario_c_home : TeamShotQuality :=
  { team_abbrev := "HOM", games := 50, hdcf_pct := some (481 / 10) }

def scenario_c_away : TeamShotQuality :=
  { team_abbrev := "AWY", games := 50, hdcf_pct := some (453 / 10) }

/-- Witness for C8 at the spec's Scenario C: total 5.0, home 48.1%, away
45.3%, no divergence — tier Avoid. -/
theorem C8_low_total_branches_witness :
    (classify_game scenario_c_odds (some scenario_c_home)
      (some scenario_c_away)).environment = GameEnvironment.avoid := by
  have hflags : divergence_flags (base_entry scenario_c_odds)
      (some scenario_c_home) (some scenario_c_away) = [] := by
    norm_num [divergence_flags, offense_flags, luck_flags, scenario_c_home,
      scenario_c_away, base_entry, scenario_c_odds, DIVERGENCE_TOTAL_THRESHOLD,
      DIVERGENCE_HDCF_THRESHOLD]
  exact ((C8_low_total_branches scenario_c_odds scenario_c_home scenario_c_away
      (by norm_num [scenario_c_odds, MODERATE_TOTAL_THRESHOLD])).2
    (by rw [classify_game_divergence_flag_eq, hflags]; rfl)).2
    (by norm_num [scenario_c_home, STRONG_HDCF_PCT])
    (by norm_num [scenario_c_away, STRONG_HDCF_PCT])

/-- C6: the market-overpricing rule fires for a side exactly when that
side's metrics and high-danger share are available, the side's implied total
is at least 3.0 and its share is below 47.0; the flag is true exactly when
some rule fired; and the detail is the semicolon-joined list of the fired
messages in the fixed order home-offense, away-offense, home-luck,
away-luck. -/
theorem C6_divergence_rule_characterization (odds : GameOdds)
    (hq aq : Option TeamShotQuality) :
    ((classify_game odds hq aq).divergence_flag = true ↔
      (∃ q p, hq = some q ∧ q.hdcf_pct = some p
        ∧ DIVERGENCE_TOTAL_THRESHOLD ≤ odds.home_implied_total
        ∧ p < DIVERGENCE_HDCF_THRESHOLD) ∨
      (∃ q p, aq = some q ∧ q.hdcf_pct = some p
        ∧ DIVERGENCE_TOTAL_THRESHOLD ≤ odds.away_implied_total
        ∧ p < DIVERGENCE_HDCF_THRESHOLD) ∨
      (∃ q p, hq = some q ∧ q.pdo = some p ∧ HIGH_PDO < p) ∨
      (∃ q p, aq = some q ∧ q.pdo = some p ∧ HIGH_PDO < p)) ∧
    (classify_game odds hq aq).divergence_detail =
      semijoin (offense_flags hq odds.home_team odds.home_implied_total ++
        offense_flags aq odds.away_team odds.away_implied_total ++
        luck_flags hq odds.home_team ++ luck_flags aq odds.away_team) := by
  constructor
  · rw [classify_game_divergence_flag_eq, bnot_isEmpty_iff]
    exact divergence_flags_ne_nil_iff (base_entry odds) hq aq
  · rw [classify_game_divergence_detail_eq]
    rfl

/-- Witness for C6 at a concrete input (away side fires the overpricing
rule). -/
theorem C6_divergence_rule_characterization_witness :
    (classify_game scenario_b_odds (some scenario_b_home)
      (some scenario_b_away)).divergence_flag = true :=
  (C6_divergence_rule_characterization scenario_b_odds (some scenario_b_home)
      (some scenario_b_away)).1.mpr
    (Or.inr (Or.inl ⟨scenario_b_away, 221 / 5, rfl, rfl,
      by norm_num [scenario_b_odds, DIVERGENCE_TOTAL_THRESHOLD],
      by norm_num [DIVERGENCE_HDCF_THRESHOLD]⟩))

/-- C7: the luck rule is asymmetric by design — a luck index strictly above
101.5 on a side sets the divergence flag and puts that side's
"regression risk" message into the detail, while a luck index at or below
101.5 (for example a symmetric cold value such as 97.0) leaves that side's
luck-check block empty, so it never fires. -/
theorem C7_luck_rule_asymmetric (odds : GameOdds) (hq aq : Option TeamShotQuality)
    (q : TeamShotQuality) (p : ℚ) :
    (hq = some q → q.pdo = some p →
      (HIGH_PDO < p →
        (classify_game odds hq aq).divergence_flag = true ∧
        strContains (classify_game odds hq aq).divergence_detail
          (pdo_msg odds.home_team p) = true) ∧
      (p ≤ HIGH_PDO → luck_flags hq odds.home_team = [])) ∧
    (aq = some q → q.pdo = some p →
      (HIGH_PDO < p →
        (classify_game odds hq aq).divergence_flag = true ∧
        strContains (classify_game odds hq aq).divergence_detail
          (pdo_msg odds.away_team p) = true) ∧
      (p ≤ HIGH_PDO → luck_flags aq odds.away_team = [])) := by
  constructor
  · rintro rfl hpdo
    constructor
    · intro hp
      have hseg : luck_flags (some q) (base_entry odds).home_team =
          [pdo_msg odds.home_team p] := by
        simp only [luck_flags, hpdo, if_pos hp]
        rfl
      have hmem : pdo_msg odds.home_team p ∈
          divergence_flags (base_entry odds) (some q) aq := by
        unfold divergence_flags
        rw [hseg]
        simp
      constructor
      · rw [classify_game_divergence_flag_eq, bnot_isEmpty_iff]
        exact List.ne_nil_of_mem hmem
      · rw [classify_game_divergence_detail_eq]
        exact strContains_semijoin hmem
    · intro hple
      simp only [luck_flags, hpdo, if_neg (not_lt.mpr hple)]
  · rintro rfl hpdo
    constructor
    · intro hp
      have hseg : luck_flags (some q) (base_entry odds).away_team =
          [pdo_msg odds.away_team p] := by
        simp only [luck_flags, hpdo, if_pos hp]
        rfl
      have hmem : pdo_msg odds.away_team p ∈
          divergence_flags (base_entry odds) hq (some q) := by
        unfold divergence_flags
        rw [hseg]
        simp
      constructor
      · rw [classify_game_divergence_flag_eq, bnot_isEmpty_iff]
        exact List.ne_nil_of_mem hmem
      · rw [classify_game_divergence_detail_eq]
        exact strContains_semijoin hmem
    · intro hple
      simp only [luck_flags, hpdo, if_neg (not_lt.mpr hple)]

/-- The odds and metrics of the luck-flag scenario: home PDO 103.0, away
PDO 97.0, both sides quality-strong. -/
def luck_odds : GameOdds :=
  { event_id := "l", home_team := "Home Team", away_team := "Away Team",
    commence_time := none, home_ml := -110, away_ml := -110,
    home_spread := none, total := 6, home_implied_total := 3,
    away_implied_total := 3 }

def luck_home : TeamShotQuality :=
  { team_abbrev := "HOM", games := 50, hdcf_pct := some 53, pdo := some 103 }

def luck_away : TeamShotQuality :=
  { team_abbrev := "AWY", games := 50, hdcf_pct := some 53, pdo := some 97 }

/-- Witness for C7: home PDO 103.0 sets the flag; away PDO 97.0 leaves the
away luck-check block empty. -/
theorem C7_luck_rule_asymmetric_witness :
    (classify_game luck_odds (some luck_home) (some luck_away)).divergence_flag
      = true ∧
    luck_flags (some luck_away) "Away Team" = [] :=
  ⟨(((C7_luck_rule_asymmetric luck_odds (some luck_home) (some luck_away)
        luck_home 103).1 rfl rfl).1 (by norm_num [HIGH_PDO])).1,
   ((C7_luck_rule_asymmetric luck_odds (some luck_home) (some luck_away)
        luck_away 97).2 rfl rfl).2 (by norm_num [HIGH_PDO])⟩

/-- For every input, `_classify_environment` writes a rationale whose first
character identifies a real branch; the defensive fallback text starts with
'N' and is never produced. -/
lemma classify_environment_reason_head (e : GameSlateEntry)
    (hq aq : Option TeamShotQuality) :
    ∃ c, (classify_environment e hq aq).environment_reason.data.head? = some c ∧
      c ≠ 'N' := by
  unfold classify_environment
  cases hq <;> cases aq <;> dsimp only <;> (repeat' split) <;>
    first
    | exact ⟨'H', rfl, by decide⟩
    | exact ⟨'M', rfl, by decide⟩
    | exact ⟨'L', rfl, by decide⟩
    | exact ⟨'T', rfl, by decide⟩
    | exact ⟨'D', rfl, by decide⟩
    | (rename_i h1 h2 h3 h4
       exact absurd (not_le.mp h2) h4)

/-- C9: every input combination yields a tier together with a non-empty
rationale, and the defensive "insufficient signal" Avoid fallback is
unreachable: no produced rationale equals the fallback text. -/
theorem C9_rationale_total_fallback_unreachable (odds : GameOdds)
    (hq aq : Option TeamShotQuality) :
    (classify_game odds hq aq).environment_reason ≠ "" ∧
    (classify_game odds hq aq).environment_reason ≠
      "No clear classification — insufficient signal." := by
  obtain ⟨c, hc, hcn⟩ := classify_environment_reason_head
    (check_divergence (attach_quality (base_entry odds) hq aq) hq aq) hq aq
  exact ⟨str_ne_empty_of_head hc, str_ne_of_head_ne hc rfl hcn⟩

/-- C10: with metrics present for exactly one side the classifier takes the
no-quality-data branch — the tier depends on the total alone, with the same
thresholds as the no-metrics case — while the present side's metrics are
still copied onto the entry and still drive divergence detection. -/
theorem C10_one_sided_metrics (odds : GameOdds) (q : TeamShotQuality) :
    ((HIGH_TOTAL_THRESHOLD ≤ odds.total →
        (classify_game odds (some q) none).environment = GameEnvironment.chalk ∧
        (classify_game odds none (some q)).environment = GameEnvironment.chalk) ∧
     (MODERATE_TOTAL_THRESHOLD ≤ odds.total → odds.total < HIGH_TOTAL_THRESHOLD →
        (classify_game odds (some q) none).environment = GameEnvironment.leverage ∧
        (classify_game odds none (some q)).environment = GameEnvironment.leverage) ∧
     (odds.total < MODERATE_TOTAL_THRESHOLD →
        (classify_game odds (some q) none).environment = GameEnvironment.contrarian ∧
        (classify_game odds none (some q)).environment = GameEnvironment.contrarian)) ∧
    ((classify_game odds (some q) none).home_hdcf_pct = q.hdcf_pct ∧
     (classify_game odds (some q) none).home_pdo = q.pdo ∧
     (classify_game odds none (some q)).away_hdcf_pct = q.hdcf_pct ∧
     (classify_game odds none (some q)).away_pdo = q.pdo) ∧
    ((classify_game odds (some q) none).divergence_flag = true ↔
      (∃ p, q.hdcf_pct = some p
        ∧ DIVERGENCE_TOTAL_THRESHOLD ≤ odds.home_implied_total
        ∧ p < DIVERGENCE_HDCF_THRESHOLD) ∨
      (∃ p, q.pdo = some p ∧ HIGH_PDO < p)) ∧
    ((classify_game odds none (some q)).divergence_flag = true ↔
      (∃ p, q.hdcf_pct = some p
        ∧ DIVERGENCE_TOTAL_THRESHOLD ≤ odds.away_implied_total
        ∧ p < DIVERGENCE_HDCF_THRESHOLD) ∨
      (∃ p, q.pdo = some p ∧ HIGH_PDO < p)) := by
  have hcg1 : classify_game odds (some q) none =
      classify_environment
        (check_divergence (attach_quality (base_entry odds) (some q) none)
          (some q) none)
        (some q) none := rfl
  have hcg2 : classify_game odds none (some q) =
      classify_environment
        (check_divergence (attach_quality (base_entry odds) none (some q))
          none (some q))
        none (some q) := rfl
  have ht1 : (check_divergence (attach_quality (base_entry odds) (some q) none)
      (some q) none).total = odds.total := by
    rw [check_divergence_total]
    rfl
  have ht2 : (check_divergence (attach_quality (base_entry odds) none (some q))
      none (some q)).total = odds.total := by
    rw [check_divergence_total]
    rfl
  refine ⟨⟨fun h6 => ⟨?_, ?_⟩, fun h55 h6 => ⟨?_, ?_⟩, fun h55 => ⟨?_, ?_⟩⟩,
    ⟨?_, ?_, ?_, ?_⟩, ?_, ?_⟩
  · rw [hcg1, classify_environment_nodata _ _ _ (Or.inr rfl), ht1, if_pos h6]
  · rw [hcg2, classify_environment_nodata _ _ _ (Or.inl rfl), ht2, if_pos h6]
  · rw [hcg1, classify_environment_nodata _ _ _ (Or.inr rfl), ht1,
      if_neg (not_le.mpr h6), if_pos h55]
  · rw [hcg2, classify_environment_nodata _ _ _ (Or.inl rfl), ht2,
      if_neg (not_le.mpr h6), if_pos h55]
  · rw [hcg1, classify_environment_nodata _ _ _ (Or.inr rfl), ht1,
      if_neg (not_le.mpr (lt_of_lt_of_le h55 mod_le_high)),
      if_neg (not_le.mpr h55)]
  · rw [hcg2, classify_environment_nodata _ _ _ (Or.inl rfl), ht2,
      if_neg (not_le.mpr (lt_of_lt_of_le h55 mod_le_high)),
      if_neg (not_le.mpr h55)]
  · rw [hcg1, classify_environment_home_hdcf_pct, check_divergence_home_hdcf_pct]
    rfl
  · rw [hcg1, classify_environment_home_pdo, check_divergence_home_pdo]
    rfl
  · rw [hcg2, classify_environment_away_hdcf_pct, check_divergence_away_hdcf_pct]
    rfl
  · rw [hcg2, classify_environment_away_pdo, check_divergence_away_pdo]
    rfl
  · rw [classify_game_divergence_flag_eq, bnot_isEmpty_iff,
      divergence_flags_ne_nil_iff]
    simp [base_entry]
  · rw [classify_game_divergence_flag_eq, bnot_isEmpty_iff,
      divergence_flags_ne_nil_iff]
    simp [base_entry]

/-- A quality record with a strong high-danger share, to witness that a
one-sided record does not influence the tier. -/
def one_sided_quality : TeamShotQuality :=
  { team_abbrev := "ONE", games := 50, hdcf_pct := some 99 }

def one_sided_odds : GameOdds :=
  { event_id := "o", home_team := "Home Team", away_team := "Away Team",
    commence_time := none, home_ml := -110, away_ml := -110,
    home_spread := none, total := 5, home_implied_total := 2,
    away_implied_total := 3 }

/-- Witness for C10: total 5.0 with a single very strong (99%) home record
still lands in Contrarian via the total-only branch, and the record is
copied onto the entry. -/
theorem C10_one_sided_metrics_witness :
    (classify_game one_sided_odds (some one_sided_quality) none).environment =
      GameEnvironment.contrarian ∧
    (classify_game one_sided_odds (some one_sided_quality) none).home_hdcf_pct =
      some 99 :=
  ⟨((C10_one_sided_metrics one_sided_odds one_sided_quality).1.2.2
      (by norm_num [one_sided_odds, MODERATE_TOTAL_THRESHOLD])).1,
   ((C10_one_sided_metrics one_sided_odds one_sided_quality).2.1.1).trans rfl⟩

/-- Witness for C3: the empty odds list yields an empty breakdown. -/
theorem C3_breakdown_sorted_stable_empty_witness :
    (build_slate_breakdown [] []).games = [] :=
  (C3_breakdown_sorted_stable_empty [] []).2.2

/-- Witness for C4 at a concrete input with a fired divergence rule. -/
theorem C4_divergence_flag_iff_detail_witness :
    ((classify_game scenario_b_odds (some scenario_b_home)
        (some scenario_b_away)).divergence_flag = true ↔
      0 < (classify_game scenario_b_odds (some scenario_b_home)
        (some scenario_b_away)).divergence_detail.length) :=
  C4_divergence_flag_iff_detail scenario_b_odds (some scenario_b_home)
    (some scenario_b_away)

/-- Witness for C9 at a concrete no-metrics input. -/
theorem C9_rationale_total_fallback_unreachable_witness :
    (classify_game scenario_d_odds none none).environment_reason ≠ "" :=
  (C9_rationale_total_fallback_unreachable scenario_d_odds none none).1
